import Mathlib

/-!
# Admission webhook of the `EmqxEnterprise` resource (`apis/apps/v1beta3`)

A shallow embedding of `emqxenterprise_webhook.go`: the defaulter `Default` and the
validators `ValidateCreate`, `ValidateUpdate`, `ValidateDelete` with their helper checks
`validateUsernameAndPassword`, `validateLicense` and `validatePersistent`.

Conventions of the embedding

* A Go map is `GoMap V`: `none` is the nil map, `some m` a map with the finite content `m`.
  Two maps are equal exactly when they have the same content.
* A Go pointer that may be nil is an `Option`; `int64` values are `Int` (the only
  constant the code writes is 1000, far from the range bounds).
* A Go `error` result is `Option GoError`: `none` is `nil`, `some e` an error built by
  `errors.New` with message `e.msg`.
* The calls to the logger do not change any result and are left out.
* The functions the webhook calls but that are declared in other files
  (`validateImageTag`, `EmqxConfig.Default`, `ServiceTemplate.Default`) and the
  constants `DefaultUsername`, `DefaultPassword` are the fields of `Collaborators`;
  every theorem quantifies over them. Where a property needs the behaviour the spec
  gives the two delegated defaulters, it is the hypothesis `DelegatedStepsAsSpecified`.
* The persistence configuration and the service template are type parameters `P`
  and `S`: the webhook only compares the former and hands the latter to its defaulter.
-/

namespace EmqxWebhook

/-! ## Data model -/

/-- Content of a non-nil Go map with string keys. -/
abbrev MapContent (V : Type) : Type := Finmap (fun _ : String => V)

/-- Go map with string keys: `none` is the nil map. -/
abbrev GoMap (V : Type) : Type := Option (MapContent V)

/-- Go `len(m)` for a map: the number of keys, 0 for the nil map. -/
def GoMap.len {V : Type} (m : GoMap V) : Nat :=
  match m with
  | none => 0
  | some c => c.keys.card

/-- Go `m[k]` read with the comma-ok form: `none` when the key is absent (or the map nil). -/
def GoMap.get {V : Type} (m : GoMap V) (k : String) : Option V :=
  match m with
  | none => none
  | some c => c.lookup k

/-- Go `error` value made by `errors.New(msg)`. -/
structure GoError where
  msg : String
deriving DecidableEq

/-- Go `errors.New`. -/
def errors.New (msg : String) : GoError := ⟨msg⟩

/-- The type `corev1.PodFSGroupChangePolicy` (a string type with two declared constants). -/
inductive PodFSGroupChangePolicy where
  | FSGroupChangeOnRootMismatch
  | FSGroupChangeAlways
deriving DecidableEq

/-- The fields of `corev1.PodSecurityContext` that the webhook writes, with
`RunAsNonRoot` standing for the fields the literal in `Default` leaves at their zero
value. Pointers are options; the slice is a list. -/
structure PodSecurityContext where
  RunAsUser : Option Int
  RunAsGroup : Option Int
  RunAsNonRoot : Option Bool
  SupplementalGroups : List Int
  FSGroup : Option Int
  FSGroupChangePolicy : Option PodFSGroupChangePolicy
deriving DecidableEq

/-- The license of the template: a secret reference or inline material. The values of
`Data` are byte slices. -/
structure License where
  SecretName : String
  Data : GoMap (List Nat)
  StringData : GoMap String
deriving DecidableEq

/-- The type `EmqxConfig`, a `map[string]string`. -/
abbrev EmqxConfig : Type := GoMap String

/-- The template of the resource specification (`r.Spec.EmqxTemplate`). -/
structure EmqxEnterpriseTemplate (P S : Type) where
  Image : String
  EmqxConfig : EmqxConfig
  ServiceTemplate : S
  SecurityContext : Option PodSecurityContext
  Username : String
  Password : String
  License : License
  Persistent : P
deriving DecidableEq

/-- The specification of the resource (`r.Spec`). -/
structure EmqxEnterpriseSpec (P S : Type) where
  EmqxTemplate : EmqxEnterpriseTemplate P S
deriving DecidableEq

/-- The resource: the object metadata the webhook touches, and the specification. -/
structure EmqxEnterprise (P S : Type) where
  Name : String
  Labels : GoMap String
  Spec : EmqxEnterpriseSpec P S
deriving DecidableEq

/-- The functions and constants that the webhook uses and that other files declare. -/
structure Collaborators (P S : Type) where
  /-- The check `validateImageTag(r)`. -/
  validateImageTag : EmqxEnterprise P S → Option GoError
  /-- The method `EmqxConfig.Default(r)`: from the content of the (non-nil) receiver map
  and the owning resource to the content the map has after the call. -/
  configDefault : MapContent String → EmqxEnterprise P S → MapContent String
  /-- The method `ServiceTemplate.Default(r)`: from the receiver and the owning resource
  to the receiver after the call. -/
  serviceDefault : S → EmqxEnterprise P S → S
  /-- The constant `DefaultUsername`. -/
  DefaultUsername : String
  /-- The constant `DefaultPassword`. -/
  DefaultPassword : String

/-- Modelled from the spec: the method `GetName` of the object metadata, which returns
the identifier `Name` of the resource. -/
def EmqxEnterprise.GetName {P S : Type} (r : EmqxEnterprise P S) : String := r.Name

/-! ## The defaulter -/

/-- Lines 47-51 of `Default`: a nil `Labels` becomes an empty map, then the two
reserved keys are assigned. -/
def defaultLabels {P S : Type} (r : EmqxEnterprise P S) : EmqxEnterprise P S :=
  let labels : MapContent String :=
    match r.Labels with
    | none => ∅
    | some m => m
  let labels := labels.insert "apps.emqx.io/managed-by" "emqx-operator"
  let labels := labels.insert "apps.emqx.io/instance" r.GetName
  { r with Labels := some labels }

/-- Lines 53-56 of `Default`: a nil `EmqxConfig` becomes an empty map, then the config
defaulter runs on it with the resource as owner. -/
def defaultConfig {P S : Type} (E : Collaborators P S) (r : EmqxEnterprise P S) :
    EmqxEnterprise P S :=
  let config : MapContent String :=
    match r.Spec.EmqxTemplate.EmqxConfig with
    | none => ∅
    | some m => m
  let r : EmqxEnterprise P S := { r with Spec.EmqxTemplate.EmqxConfig := some config }
  { r with Spec.EmqxTemplate.EmqxConfig := some (E.configDefault config r) }

/-- Line 57 of `Default`: the service-template defaulter runs with the resource as owner. -/
def defaultServiceTemplate {P S : Type} (E : Collaborators P S) (r : EmqxEnterprise P S) :
    EmqxEnterprise P S :=
  { r with Spec.EmqxTemplate.ServiceTemplate :=
      E.serviceDefault r.Spec.EmqxTemplate.ServiceTemplate r }

/-- The literal of lines 60-69 of `Default`. -/
def defaultPodSecurityContext : PodSecurityContext :=
  let emqxUserGroup : Int := 1000
  let fsGroupChangeAlways := PodFSGroupChangePolicy.FSGroupChangeAlways
  { RunAsUser := some emqxUserGroup
    RunAsGroup := some emqxUserGroup
    RunAsNonRoot := none
    FSGroup := some emqxUserGroup
    FSGroupChangePolicy := some fsGroupChangeAlways
    SupplementalGroups := [emqxUserGroup] }

/-- Lines 59-70 of `Default`: only a nil `SecurityContext` is replaced. -/
def defaultSecurityContext {P S : Type} (r : EmqxEnterprise P S) : EmqxEnterprise P S :=
  match r.Spec.EmqxTemplate.SecurityContext with
  | none => { r with Spec.EmqxTemplate.SecurityContext := some defaultPodSecurityContext }
  | some _ => r

/-- Lines 72-77 of `Default`: an empty username, and an empty password, get the default.
Go `len` of a string counts bytes and `String.length` characters; the code only
compares the length with zero, where the two agree. -/
def defaultCredentials {P S : Type} (E : Collaborators P S) (r : EmqxEnterprise P S) :
    EmqxEnterprise P S :=
  let r : EmqxEnterprise P S :=
    if r.Spec.EmqxTemplate.Username.length = 0 then
      { r with Spec.EmqxTemplate.Username := E.DefaultUsername }
    else r
  if r.Spec.EmqxTemplate.Password.length = 0 then
    { r with Spec.EmqxTemplate.Password := E.DefaultPassword }
  else r

/-- The method `(r *EmqxEnterprise) Default()`: the resource after the in-place update. -/
def Default {P S : Type} (E : Collaborators P S) (r : EmqxEnterprise P S) :
    EmqxEnterprise P S :=
  let r := defaultLabels r
  let r := defaultConfig E r
  let r := defaultServiceTemplate E r
  let r := defaultSecurityContext r
  defaultCredentials E r

/-! ## The validators -/

/-- Modelled from the spec: the capability interface `Emqx` shared by the resource
variants, as far as the validators use it: the answers of `GetUsername`, `GetPassword`
and `GetPersistent`. -/
structure Emqx (P : Type) where
  GetUsername : String
  GetPassword : String
  GetPersistent : P

/-- Modelled from the spec: the getters of the enterprise variant, which are declared
with the resource type; each returns the field of the template it is named after. -/
def EmqxEnterprise.asEmqx {P S : Type} (r : EmqxEnterprise P S) : Emqx P :=
  { GetUsername := r.Spec.EmqxTemplate.Username
    GetPassword := r.Spec.EmqxTemplate.Password
    GetPersistent := r.Spec.EmqxTemplate.Persistent }

/-- A `runtime.Object` as `ValidateUpdate` receives it: an enterprise resource, or an
object of some other dynamic type. -/
inductive RuntimeObject (P S : Type) where
  | emqxEnterprise (e : EmqxEnterprise P S)
  | other (kind : String)

/-- What a call of a validator does: it returns an `error` (possibly nil), or the
type assertion of `ValidateUpdate` panics. -/
inductive Outcome where
  | returned (err : Option GoError)
  | panicked
deriving DecidableEq

/-- The function `validateUsernameAndPassword`. -/
def validateUsernameAndPassword {P : Type} (new old : Emqx P) : Option GoError :=
  if new.GetUsername ≠ old.GetUsername then
    some (errors.New "refuse to update username ")
  else if new.GetPassword ≠ old.GetPassword then
    some (errors.New "refuse to update password")
  else none

/-- The function `validateLicense`. -/
def validateLicense {P S : Type} (emqx : EmqxEnterprise P S) : Option GoError :=
  let license := emqx.Spec.EmqxTemplate.License
  if license.SecretName.length > 0 then
    if license.Data.len ≠ 0 ∨ license.StringData.len ≠ 0 then
      some (errors.New "SecretName or Data and StringData can only set one ")
    else none
  else none

/-- The function `validatePersistent`; `reflect.DeepEqual` on two persistence
configurations is equality of the values of `P`. -/
def validatePersistent {P : Type} [DecidableEq P] (newEmqx oldEmqx : Emqx P) :
    Option GoError :=
  if ¬ (newEmqx.GetPersistent = oldEmqx.GetPersistent) then
    some (errors.New "refuse to update persistent ")
  else none

/-- The method `ValidateCreate`. -/
def ValidateCreate {P S : Type} (E : Collaborators P S) (r : EmqxEnterprise P S) :
    Option GoError :=
  match E.validateImageTag r with
  | some err => some err
  | none =>
    match validateLicense r with
    | some err => some err
    | none => none

/-- The method `ValidateUpdate`. The assertion `old.(*EmqxEnterprise)` panics when
`old` has another dynamic type. -/
def ValidateUpdate {P S : Type} [DecidableEq P] (E : Collaborators P S)
    (r : EmqxEnterprise P S) (old : RuntimeObject P S) : Outcome :=
  match E.validateImageTag r with
  | some err => .returned (some err)
  | none =>
    match old with
    | .other _ => .panicked
    | .emqxEnterprise oldEmqx =>
      match validateUsernameAndPassword r.asEmqx oldEmqx.asEmqx with
      | some err => .returned (some err)
      | none =>
        match validateLicense r with
        | some err => .returned (some err)
        | none =>
          match validatePersistent r.asEmqx oldEmqx.asEmqx with
          | some err => .returned (some err)
          | none => .returned none

/-- The method `ValidateDelete`. -/
def ValidateDelete {P S : Type} (_r : EmqxEnterprise P S) : Option GoError :=
  none

/-! ## Concrete inputs used by the witnesses and the counterexamples -/

/-- Collaborators that accept every image and leave config and service template as
they are. -/
def plainCollaborators : Collaborators Nat Unit :=
  { validateImageTag := fun _ => none
    configDefault := fun m _ => m
    serviceDefault := fun t _ => t
    DefaultUsername := "admin"
    DefaultPassword := "public" }

/-- A resource named `emqx-ee` with every optional field unset. -/
def bareResource : EmqxEnterprise Nat Unit :=
  { Name := "emqx-ee"
    Labels := none
    Spec :=
      { EmqxTemplate :=
          { Image := "emqx/emqx-ee:4.4.0"
            EmqxConfig := none
            ServiceTemplate := ()
            SecurityContext := none
            Username := ""
            Password := ""
            License := { SecretName := "", Data := none, StringData := none }
            Persistent := 0 } } }

/-- A security context with every field unset. -/
def emptyPodSecurityContext : PodSecurityContext :=
  { RunAsUser := none
    RunAsGroup := none
    RunAsNonRoot := none
    SupplementalGroups := []
    FSGroup := none
    FSGroupChangePolicy := none }

/-- Collaborators whose config defaulter records the name of the owner under the key
`name`, and whose service-template defaulter (on templates that are a string) answers
the name of the owner. -/
def namingCollaborators : Collaborators Nat String :=
  { validateImageTag := fun _ => none
    configDefault := fun m owner => m.insert "name" owner.Name
    serviceDefault := fun _ owner => owner.Name
    DefaultUsername := "admin"
    DefaultPassword := "public" }

/-- A resource for `namingCollaborators`, with a label under a reserved key. -/
def labelledResource : EmqxEnterprise Nat String :=
  { Name := "emqx-ee"
    Labels := some (Finmap.singleton "apps.emqx.io/instance" "someone-else")
    Spec :=
      { EmqxTemplate :=
          { Image := "emqx/emqx-ee:4.4.0"
            EmqxConfig := none
            ServiceTemplate := ""
            SecurityContext := none
            Username := ""
            Password := "secret"
            License := { SecretName := "", Data := none, StringData := none }
            Persistent := 0 } } }

/-- Collaborators whose image-tag check rejects an image reference without a colon;
the rest is as in `plainCollaborators`. -/
def tagCheckingCollaborators : Collaborators Nat Unit :=
  { validateImageTag := fun r =>
      if ':' ∈ r.Spec.EmqxTemplate.Image.data then none
      else some (errors.New "image tag is missing")
    configDefault := fun m _ => m
    serviceDefault := fun t _ => t
    DefaultUsername := "admin"
    DefaultPassword := "public" }

/-- The license `License{SecretName: "s", Data: nil}`. -/
def secretOnlyLicense : License :=
  { SecretName := "s", Data := none, StringData := none }

/-- The license `License{SecretName: "s", StringData: {"k": "v"}}`. -/
def conflictingLicense : License :=
  { SecretName := "s", Data := none, StringData := some (Finmap.singleton "k" "v") }

/-- The bare resource with username `alice` and password `pw`. -/
def aliceResource : EmqxEnterprise Nat Unit :=
  { bareResource with
    Spec.EmqxTemplate.Username := "alice"
    Spec.EmqxTemplate.Password := "pw" }

/-- The bare resource with username `bob` and password `pw`. -/
def bobResource : EmqxEnterprise Nat Unit :=
  { bareResource with
    Spec.EmqxTemplate.Username := "bob"
    Spec.EmqxTemplate.Password := "pw" }

/-- The resource `aliceResource` with an image reference that has no tag. -/
def aliceUntagged : EmqxEnterprise Nat Unit :=
  { aliceResource with Spec.EmqxTemplate.Image := "emqx/emqx-ee" }

/-- The resource `aliceResource` with a secret reference and inline license material. -/
def aliceConflicting : EmqxEnterprise Nat Unit :=
  { aliceResource with Spec.EmqxTemplate.License := conflictingLicense }

/-- The bare resource with the license that only names a secret. -/
def secretOnlyResource : EmqxEnterprise Nat Unit :=
  { bareResource with Spec.EmqxTemplate.License := secretOnlyLicense }

/-- The resource `aliceResource` with another persistence configuration. -/
def aliceResized : EmqxEnterprise Nat Unit :=
  { aliceResource with Spec.EmqxTemplate.Persistent := 1 }

/-! ## Predicates used to state the properties -/

/-- The license names a secret: `SecretName` is not empty. -/
abbrev License.secretSet (l : License) : Prop := l.SecretName ≠ ""

/-- The license carries inline material: `Data` or `StringData` is not empty. -/
abbrev License.inlineSet (l : License) : Prop := l.Data.len ≠ 0 ∨ l.StringData.len ≠ 0

/-- The error of the license check. -/
def licenseError : GoError :=
  errors.New "SecretName or Data and StringData can only set one "

/-- The error of the credentials check for a changed username. -/
def usernameRefusal : GoError := errors.New "refuse to update username "

/-- The error of the credentials check for a changed password. -/
def passwordRefusal : GoError := errors.New "refuse to update password"

/-- The error of the persistence check. -/
def persistentRefusal : GoError := errors.New "refuse to update persistent "

/-- Modelled from the spec: the delegated defaulters `EmqxConfig.Default` and
`ServiceTemplate.Default`, which `Default` calls and which are declared outside this
file. The spec (section 4.1) describes the steps of `Default` as each independently
idempotent and order-insensitive. For the two delegated steps this says: running the
step twice is the same as running it once, and running it before or after any other
step of `Default` gives the same resource. -/
structure DelegatedStepsAsSpecified {P S : Type} (E : Collaborators P S) : Prop where
  /-- The config step is idempotent. -/
  config_idem : ∀ r : EmqxEnterprise P S,
    defaultConfig E (defaultConfig E r) = defaultConfig E r
  /-- The service-template step is idempotent. -/
  service_idem : ∀ r : EmqxEnterprise P S,
    defaultServiceTemplate E (defaultServiceTemplate E r) = defaultServiceTemplate E r
  /-- The config step and the label step can be swapped. -/
  config_labels : ∀ r : EmqxEnterprise P S,
    defaultConfig E (defaultLabels r) = defaultLabels (defaultConfig E r)
  /-- The config step and the service-template step can be swapped. -/
  config_service : ∀ r : EmqxEnterprise P S,
    defaultConfig E (defaultServiceTemplate E r)
      = defaultServiceTemplate E (defaultConfig E r)
  /-- The config step and the security-context step can be swapped. -/
  config_securityContext : ∀ r : EmqxEnterprise P S,
    defaultConfig E (defaultSecurityContext r) = defaultSecurityContext (defaultConfig E r)
  /-- The config step and the credentials step can be swapped. -/
  config_credentials : ∀ r : EmqxEnterprise P S,
    defaultConfig E (defaultCredentials E r) = defaultCredentials E (defaultConfig E r)
  /-- The service-template step and the label step can be swapped. -/
  service_labels : ∀ r : EmqxEnterprise P S,
    defaultServiceTemplate E (defaultLabels r) = defaultLabels (defaultServiceTemplate E r)
  /-- The service-template step and the security-context step can be swapped. -/
  service_securityContext : ∀ r : EmqxEnterprise P S,
    defaultServiceTemplate E (defaultSecurityContext r)
      = defaultSecurityContext (defaultServiceTemplate E r)
  /-- The service-template step and the credentials step can be swapped. -/
  service_credentials : ∀ r : EmqxEnterprise P S,
    defaultServiceTemplate E (defaultCredentials E r)
      = defaultCredentials E (defaultServiceTemplate E r)

/-- The error surfaced by a fail-fast run of checks, given their results in the order
they run: the result of the first check that fails, success when none fails. -/
def firstFailure : List (Option GoError) → Option GoError
  | [] => none
  | some err :: _ => some err
  | none :: rest => firstFailure rest

/-- A resource named `emqx-ee` with a label of its owner and other values under the two
reserved label keys. -/
def teamResource : EmqxEnterprise Nat Unit :=
  { bareResource with
    Labels := some (((Finmap.singleton "team" "iot").insert
      "apps.emqx.io/managed-by" "helm").insert "apps.emqx.io/instance" "other") }

/-! ## Helper lemmas -/

/-- Go `len(s) == 0` holds exactly for the empty string. -/
theorem length_eq_zero_iff_empty (s : String) : s.length = 0 ↔ s = "" := by
  constructor
  · intro h
    apply String.ext
    have h2 : s.data.length = 0 := h
    exact List.length_eq_zero.mp h2
  · rintro rfl
    rfl

/-- The steps of `Default` after the label step leave `Labels` alone. -/
theorem Default_Labels {P S : Type} (E : Collaborators P S) (r : EmqxEnterprise P S) :
    (Default E r).Labels = (defaultLabels r).Labels := by
  simp only [Default, defaultCredentials, defaultSecurityContext, defaultServiceTemplate,
    defaultConfig]
  split <;> split <;> split <;> rfl

/-- The security context after `Default` is decided by the security-context step alone. -/
theorem Default_SecurityContext {P S : Type} (E : Collaborators P S)
    (r : EmqxEnterprise P S) :
    (Default E r).Spec.EmqxTemplate.SecurityContext =
      match r.Spec.EmqxTemplate.SecurityContext with
      | none => some defaultPodSecurityContext
      | some sc => some sc := by
  simp only [Default, defaultCredentials, defaultSecurityContext, defaultServiceTemplate,
    defaultConfig, defaultLabels]
  cases h : r.Spec.EmqxTemplate.SecurityContext <;> simp only [] <;>
    split <;> split <;> rfl

/-- The username after `Default` is decided by the credentials step alone. -/
theorem Default_Username {P S : Type} (E : Collaborators P S) (r : EmqxEnterprise P S) :
    (Default E r).Spec.EmqxTemplate.Username =
      if r.Spec.EmqxTemplate.Username.length = 0 then E.DefaultUsername
      else r.Spec.EmqxTemplate.Username := by
  simp only [Default, defaultCredentials, defaultSecurityContext, defaultServiceTemplate,
    defaultConfig, defaultLabels]
  cases h : r.Spec.EmqxTemplate.SecurityContext <;> simp only [] <;>
    split <;> split <;> rfl

/-- The password after `Default` is decided by the credentials step alone. -/
theorem Default_Password {P S : Type} (E : Collaborators P S) (r : EmqxEnterprise P S) :
    (Default E r).Spec.EmqxTemplate.Password =
      if r.Spec.EmqxTemplate.Password.length = 0 then E.DefaultPassword
      else r.Spec.EmqxTemplate.Password := by
  simp only [Default, defaultCredentials, defaultSecurityContext, defaultServiceTemplate,
    defaultConfig, defaultLabels]
  cases h : r.Spec.EmqxTemplate.SecurityContext <;> simp only [] <;>
    split <;> split <;> rfl

/-! ## The defaulter: labels, security context, credentials -/

/-- C1: for every resource, whatever its labels were (nil, or any map, also one with
other values under the reserved keys), after `Default` the label map is non-nil, maps
`apps.emqx.io/managed-by` to `emqx-operator` and `apps.emqx.io/instance` to the name
of the resource. -/
theorem C1_Default_reserved_labels {P S : Type} (E : Collaborators P S)
    (r : EmqxEnterprise P S) :
    (Default E r).Labels ≠ none ∧
    (Default E r).Labels.get "apps.emqx.io/managed-by" = some "emqx-operator" ∧
    (Default E r).Labels.get "apps.emqx.io/instance" = some r.Name ∧
    (Default E r).Name = r.Name := by
  have hne : "apps.emqx.io/managed-by" ≠ "apps.emqx.io/instance" := by decide
  refine ⟨?_, ?_, ?_, ?_⟩
  · rw [Default_Labels]; simp [defaultLabels]
  · rw [Default_Labels]
    simp only [defaultLabels, GoMap.get]
    rw [Finmap.lookup_insert_of_ne _ hne, Finmap.lookup_insert]
  · rw [Default_Labels]
    simp only [defaultLabels, GoMap.get, EmqxEnterprise.GetName]
    rw [Finmap.lookup_insert]
  · simp only [Default, defaultCredentials, defaultSecurityContext, defaultServiceTemplate,
      defaultConfig, defaultLabels]
    split <;> split <;> split <;> rfl

/-- C3: for every resource whose security context is nil, after `Default` the security
context is set, with run-as-user, run-as-group and filesystem group all 1000, the
group change policy `Always` and the supplemental groups `[1000]`. -/
theorem C3_Default_nil_SecurityContext {P S : Type} (E : Collaborators P S)
    (r : EmqxEnterprise P S) (h : r.Spec.EmqxTemplate.SecurityContext = none) :
    ∃ sc, (Default E r).Spec.EmqxTemplate.SecurityContext = some sc ∧
      sc.RunAsUser = some 1000 ∧ sc.RunAsGroup = some 1000 ∧ sc.FSGroup = some 1000 ∧
      sc.FSGroupChangePolicy = some PodFSGroupChangePolicy.FSGroupChangeAlways ∧
      sc.SupplementalGroups = [1000] := by
  refine ⟨defaultPodSecurityContext, ?_, rfl, rfl, rfl, rfl, rfl⟩
  rw [Default_SecurityContext, h]

/-- Witness of C3 on the resource with every optional field unset. -/
theorem C3_Default_nil_SecurityContext_witness :
    bareResource.Spec.EmqxTemplate.SecurityContext = none ∧
    ∃ sc, (Default plainCollaborators bareResource).Spec.EmqxTemplate.SecurityContext
        = some sc ∧
      sc.RunAsUser = some 1000 ∧ sc.RunAsGroup = some 1000 ∧ sc.FSGroup = some 1000 ∧
      sc.FSGroupChangePolicy = some PodFSGroupChangePolicy.FSGroupChangeAlways ∧
      sc.SupplementalGroups = [1000] :=
  ⟨rfl, C3_Default_nil_SecurityContext plainCollaborators bareResource rfl⟩

/-- C4: for every resource whose security context is supplied (non-nil, whatever its
fields hold), `Default` leaves the security context equal to the supplied one. -/
theorem C4_Default_keeps_SecurityContext {P S : Type} (E : Collaborators P S)
    (r : EmqxEnterprise P S) (sc : PodSecurityContext)
    (h : r.Spec.EmqxTemplate.SecurityContext = some sc) :
    (Default E r).Spec.EmqxTemplate.SecurityContext = some sc := by
  rw [Default_SecurityContext, h]

/-- Witness of C4 on a resource that supplies a security context with every field
unset. -/
theorem C4_Default_keeps_SecurityContext_witness :
    (Default plainCollaborators
        { bareResource with
          Spec.EmqxTemplate.SecurityContext := some emptyPodSecurityContext }
      ).Spec.EmqxTemplate.SecurityContext = some emptyPodSecurityContext :=
  C4_Default_keeps_SecurityContext plainCollaborators
    { bareResource with Spec.EmqxTemplate.SecurityContext := some emptyPodSecurityContext }
    emptyPodSecurityContext rfl

/-- C5: for every resource, after `Default` the username is `DefaultUsername` if it was
empty and is unchanged otherwise; independently the password is `DefaultPassword` if it
was empty and is unchanged otherwise. -/
theorem C5_Default_credentials {P S : Type} (E : Collaborators P S)
    (r : EmqxEnterprise P S) :
    (Default E r).Spec.EmqxTemplate.Username =
        (if r.Spec.EmqxTemplate.Username = "" then E.DefaultUsername
         else r.Spec.EmqxTemplate.Username) ∧
    (Default E r).Spec.EmqxTemplate.Password =
        (if r.Spec.EmqxTemplate.Password = "" then E.DefaultPassword
         else r.Spec.EmqxTemplate.Password) := by
  rw [Default_Username, Default_Password]
  simp only [length_eq_zero_iff_empty, and_self]

/-! ## Idempotence of the defaulter -/

/-- The label step changes nothing on a resource that already carries the reserved
labels with the canonical values. -/
theorem defaultLabels_fixed {P S : Type} (r x : EmqxEnterprise P S)
    (hn : x.Name = r.Name) (hl : x.Labels = (defaultLabels r).Labels) :
    defaultLabels x = x := by
  have hne : "apps.emqx.io/instance" ≠ "apps.emqx.io/managed-by" := by decide
  obtain ⟨xn, xl, xs⟩ := x
  simp only [defaultLabels, EmqxEnterprise.GetName] at hn hl ⊢
  subst hn hl
  simp only [Finmap.insert_insert_of_ne _ hne, Finmap.insert_insert]

/-- The security-context step changes nothing on a resource with a security context. -/
theorem defaultSecurityContext_fixed {P S : Type} (x : EmqxEnterprise P S)
    (sc : PodSecurityContext) (h : x.Spec.EmqxTemplate.SecurityContext = some sc) :
    defaultSecurityContext x = x := by
  simp only [defaultSecurityContext, h]

/-- The credentials step changes nothing on its own result. -/
theorem defaultCredentials_idem {P S : Type} (E : Collaborators P S)
    (x : EmqxEnterprise P S) :
    defaultCredentials E (defaultCredentials E x) = defaultCredentials E x := by
  obtain ⟨n, l, ⟨⟨img, cfg, st, sc, u, p, lic, per⟩⟩⟩ := x
  by_cases hu : u.length = 0 <;> by_cases hp : p.length = 0 <;>
    simp only [defaultCredentials, hu, hp, if_true, if_false] <;>
    split_ifs <;> rfl

/-- The name is never written by `Default`. -/
theorem Default_Name {P S : Type} (E : Collaborators P S) (r : EmqxEnterprise P S) :
    (Default E r).Name = r.Name := by
  simp only [Default, defaultCredentials, defaultSecurityContext, defaultServiceTemplate,
    defaultConfig, defaultLabels]
  split <;> split <;> split <;> rfl

/-- The steps of `Default` that this file implements are idempotent. -/
theorem sourceSteps_idem {P S : Type} (E : Collaborators P S) (r : EmqxEnterprise P S) :
    defaultLabels (defaultLabels r) = defaultLabels r ∧
    defaultSecurityContext (defaultSecurityContext r) = defaultSecurityContext r ∧
    defaultCredentials E (defaultCredentials E r) = defaultCredentials E r := by
  refine ⟨defaultLabels_fixed r _ rfl rfl, ?_, defaultCredentials_idem E r⟩
  obtain ⟨n, l, ⟨⟨img, cfg, st, sc, u, p, lic, per⟩⟩⟩ := r
  cases sc <;> rfl

/-- The steps of `Default` that this file implements can be swapped with each other. -/
theorem sourceSteps_commute {P S : Type} (E : Collaborators P S) (r : EmqxEnterprise P S) :
    defaultLabels (defaultSecurityContext r) = defaultSecurityContext (defaultLabels r) ∧
    defaultLabels (defaultCredentials E r) = defaultCredentials E (defaultLabels r) ∧
    defaultSecurityContext (defaultCredentials E r)
      = defaultCredentials E (defaultSecurityContext r) := by
  obtain ⟨n, l, ⟨⟨img, cfg, st, sc, u, p, lic, per⟩⟩⟩ := r
  refine ⟨?_, ?_, ?_⟩
  · cases sc <;> rfl
  · by_cases hu : u.length = 0 <;> by_cases hp : p.length = 0 <;>
      simp only [defaultCredentials, defaultLabels, EmqxEnterprise.GetName, hu, hp,
        if_true, if_false]
  · cases sc <;> by_cases hu : u.length = 0 <;> by_cases hp : p.length = 0 <;>
      simp only [defaultCredentials, defaultSecurityContext, hu, hp, if_true, if_false]

/-- C2: `Default` is idempotent: for every resource `s`, `Default (Default s)` is
`Default s`, where the config defaulter and the service-template defaulter are the
delegated collaborators that `Default` calls with the owning resource as argument, and
behave as the spec describes them (idempotent and order-insensitive steps). -/
theorem C2_Default_idempotent {P S : Type} (E : Collaborators P S)
    (hE : DelegatedStepsAsSpecified E) (r : EmqxEnterprise P S) :
    Default E (Default E r) = Default E r := by
  have h1 : defaultLabels (Default E r) = Default E r :=
    defaultLabels_fixed r (Default E r) (Default_Name E r) (Default_Labels E r)
  have h2 : defaultConfig E (Default E r) = Default E r := by
    show defaultConfig E (defaultCredentials E (defaultSecurityContext
        (defaultServiceTemplate E (defaultConfig E (defaultLabels r)))))
      = defaultCredentials E (defaultSecurityContext
        (defaultServiceTemplate E (defaultConfig E (defaultLabels r))))
    rw [hE.config_credentials, hE.config_securityContext, hE.config_service,
      hE.config_idem]
  have h3 : defaultServiceTemplate E (Default E r) = Default E r := by
    show defaultServiceTemplate E (defaultCredentials E (defaultSecurityContext
        (defaultServiceTemplate E (defaultConfig E (defaultLabels r)))))
      = defaultCredentials E (defaultSecurityContext
        (defaultServiceTemplate E (defaultConfig E (defaultLabels r))))
    rw [hE.service_credentials, hE.service_securityContext, hE.service_idem]
  have h4 : defaultSecurityContext (Default E r) = Default E r := by
    have hsc := Default_SecurityContext E r
    cases hr : r.Spec.EmqxTemplate.SecurityContext with
    | none =>
      rw [hr] at hsc
      exact defaultSecurityContext_fixed _ _ hsc
    | some sc =>
      rw [hr] at hsc
      exact defaultSecurityContext_fixed _ _ hsc
  have h5 : defaultCredentials E (Default E r) = Default E r := by
    show defaultCredentials E (defaultCredentials E _) = defaultCredentials E _
    exact defaultCredentials_idem E _
  calc Default E (Default E r)
      = defaultCredentials E (defaultSecurityContext (defaultServiceTemplate E
          (defaultConfig E (defaultLabels (Default E r))))) := rfl
    _ = Default E r := by rw [h1, h2, h3, h4, h5]

/-- Witness of C2: collaborators that record the name of the owner are idempotent and
order-insensitive steps; `Default` is idempotent on a resource that holds another value
under a reserved label key and has no config, security context or username. -/
theorem C2_Default_idempotent_witness :
    Default namingCollaborators (Default namingCollaborators labelledResource)
      = Default namingCollaborators labelledResource :=
  C2_Default_idempotent namingCollaborators
    (by
      constructor
      · intro r
        obtain ⟨n, l, ⟨⟨img, cfg, st, sc, u, p, lic, per⟩⟩⟩ := r
        simp only [defaultConfig, namingCollaborators, Finmap.insert_insert]
      · intro r
        rfl
      · intro r
        rfl
      · intro r
        rfl
      · intro r
        obtain ⟨n, l, ⟨⟨img, cfg, st, sc, u, p, lic, per⟩⟩⟩ := r
        cases sc <;> rfl
      · intro r
        obtain ⟨n, l, ⟨⟨img, cfg, st, sc, u, p, lic, per⟩⟩⟩ := r
        by_cases hu : u.length = 0 <;> by_cases hp : p.length = 0 <;>
          simp only [defaultCredentials, defaultConfig, namingCollaborators, hu, hp,
            if_true, if_false]
      · intro r
        rfl
      · intro r
        obtain ⟨n, l, ⟨⟨img, cfg, st, sc, u, p, lic, per⟩⟩⟩ := r
        cases sc <;> rfl
      · intro r
        obtain ⟨n, l, ⟨⟨img, cfg, st, sc, u, p, lic, per⟩⟩⟩ := r
        by_cases hu : u.length = 0 <;> by_cases hp : p.length = 0 <;>
          simp only [defaultCredentials, defaultServiceTemplate, namingCollaborators,
            hu, hp, if_true, if_false])
    labelledResource

/-! ## The validators -/

/-- The license check fails exactly when a secret is named and inline material is
present, and then with the license error. -/
theorem validateLicense_eq {P S : Type} (r : EmqxEnterprise P S) :
    (r.Spec.EmqxTemplate.License.secretSet ∧ r.Spec.EmqxTemplate.License.inlineSet →
      validateLicense r = some licenseError) ∧
    (¬ (r.Spec.EmqxTemplate.License.secretSet ∧ r.Spec.EmqxTemplate.License.inlineSet) →
      validateLicense r = none) := by
  have hlen : r.Spec.EmqxTemplate.License.SecretName.length > 0 ↔
      r.Spec.EmqxTemplate.License.SecretName ≠ "" :=
    Nat.pos_iff_ne_zero.trans (not_congr (length_eq_zero_iff_empty _))
  simp only [validateLicense, License.secretSet, License.inlineSet, licenseError, hlen]
  constructor
  · rintro ⟨h1, h2⟩
    rw [if_pos h1, if_pos h2]
  · intro h
    by_cases h1 : r.Spec.EmqxTemplate.License.SecretName ≠ ""
    · rw [if_pos h1, if_neg (fun h2 => h ⟨h1, h2⟩)]
    · rw [if_neg h1]

/-- C6: for every resource whose image-tag check passes, `ValidateCreate` fails if and
only if `License.SecretName` is not empty and `License.Data` or `License.StringData` is
not empty, and it then returns the license error; in particular the license
`{SecretName: "s", Data: nil}` is accepted and the license
`{SecretName: "s", StringData: {"k": "v"}}` is rejected. -/
theorem C6_ValidateCreate_license {P S : Type} (E : Collaborators P S)
    (r : EmqxEnterprise P S) (himg : E.validateImageTag r = none) :
    (ValidateCreate E r ≠ none ↔
      (r.Spec.EmqxTemplate.License.SecretName ≠ "" ∧
        (r.Spec.EmqxTemplate.License.Data.len ≠ 0 ∨
          r.Spec.EmqxTemplate.License.StringData.len ≠ 0))) ∧
    (ValidateCreate E r ≠ none → ValidateCreate E r = some licenseError) ∧
    (r.Spec.EmqxTemplate.License = secretOnlyLicense → ValidateCreate E r = none) ∧
    (r.Spec.EmqxTemplate.License = conflictingLicense →
      ValidateCreate E r = some licenseError) := by
  have hvc : ValidateCreate E r = validateLicense r := by
    simp only [ValidateCreate, himg]
    cases validateLicense r <;> rfl
  obtain ⟨hyes, hno⟩ := validateLicense_eq r
  simp only [License.secretSet, License.inlineSet] at hyes hno
  rw [hvc]
  refine ⟨⟨?_, ?_⟩, ?_, ?_, ?_⟩
  · intro h
    by_contra hn
    exact h (hno hn)
  · intro h
    rw [hyes h]
    exact Option.some_ne_none _
  · intro h
    by_contra hn
    apply h
    apply hno
    intro hc
    exact hn (hyes hc)
  · intro h
    apply hno
    rw [h]
    decide
  · intro h
    apply hyes
    rw [h]
    decide

/-- Witness of C6: under collaborators that accept every image, the resource with the
conflicting license is rejected with the license error. -/
theorem C6_ValidateCreate_license_witness :
    plainCollaborators.validateImageTag aliceConflicting = none ∧
    ValidateCreate plainCollaborators aliceConflicting = some licenseError :=
  ⟨rfl, (C6_ValidateCreate_license plainCollaborators aliceConflicting rfl).2.2.2 rfl⟩

/-- The credentials check in terms of the fields of the two resources. -/
theorem validateUsernameAndPassword_eq {P S : Type} (new old : EmqxEnterprise P S) :
    validateUsernameAndPassword new.asEmqx old.asEmqx =
      if new.Spec.EmqxTemplate.Username ≠ old.Spec.EmqxTemplate.Username then
        some usernameRefusal
      else if new.Spec.EmqxTemplate.Password ≠ old.Spec.EmqxTemplate.Password then
        some passwordRefusal
      else none := rfl

/-- The persistence check in terms of the fields of the two resources. -/
theorem validatePersistent_eq {P S : Type} [DecidableEq P] (new old : EmqxEnterprise P S) :
    validatePersistent new.asEmqx old.asEmqx =
      if new.Spec.EmqxTemplate.Persistent = old.Spec.EmqxTemplate.Persistent then none
      else some persistentRefusal := by
  simp only [validatePersistent, EmqxEnterprise.asEmqx, persistentRefusal, ite_not]

/-- When the image-tag check passes and `old` is an enterprise resource, the update
validator returns the first error among credentials, license and persistence. -/
theorem ValidateUpdate_image_ok {P S : Type} [DecidableEq P] (E : Collaborators P S)
    (new old : EmqxEnterprise P S) (himg : E.validateImageTag new = none) :
    ValidateUpdate E new (.emqxEnterprise old) = .returned
      (match validateUsernameAndPassword new.asEmqx old.asEmqx with
       | some err => some err
       | none =>
         match validateLicense new with
         | some err => some err
         | none => validatePersistent new.asEmqx old.asEmqx) := by
  simp only [ValidateUpdate, himg]
  cases validateUsernameAndPassword new.asEmqx old.asEmqx with
  | some e => rfl
  | none =>
    cases validateLicense new with
    | some e => rfl
    | none =>
      cases validatePersistent new.asEmqx old.asEmqx <;> rfl

/-- When the image-tag check fails, the update validator returns its error. -/
theorem ValidateUpdate_image_err {P S : Type} [DecidableEq P] (E : Collaborators P S)
    (new : EmqxEnterprise P S) (old : RuntimeObject P S) (e : GoError)
    (himg : E.validateImageTag new = some e) :
    ValidateUpdate E new old = .returned (some e) := by
  simp only [ValidateUpdate, himg]

/-- C7, counterexample: the resource whose license sets neither a secret name nor inline
material is accepted by `ValidateCreate`, and as the new resource by `ValidateUpdate`. -/
theorem C7_license_neither_accepted_counterexample :
    ValidateCreate plainCollaborators bareResource = none ∧
    ValidateUpdate plainCollaborators bareResource (.emqxEnterprise bareResource)
      = .returned none ∧
    ¬ bareResource.Spec.EmqxTemplate.License.secretSet ∧
    ¬ bareResource.Spec.EmqxTemplate.License.inlineSet := by
  refine ⟨by decide, by decide, ?_, ?_⟩
  · simp [License.secretSet, bareResource]
  · simp [License.inlineSet, bareResource, GoMap.len]

/-- C7, amended: for every resource accepted by `ValidateCreate`, and for every new
resource accepted by `ValidateUpdate`, the license does not set both alternatives: a
non-empty `SecretName` never comes with a non-empty `Data` or `StringData`. -/
theorem C7_accepted_license_not_both {P S : Type} [DecidableEq P] (E : Collaborators P S)
    (r : EmqxEnterprise P S)
    (h : ValidateCreate E r = none ∨ ∃ old, ValidateUpdate E r old = .returned none) :
    ¬ (r.Spec.EmqxTemplate.License.secretSet ∧ r.Spec.EmqxTemplate.License.inlineSet) := by
  intro hboth
  have hlic : validateLicense r = some licenseError := (validateLicense_eq r).1 hboth
  rcases h with h | ⟨old, h⟩
  · simp only [ValidateCreate, hlic] at h
    cases himg : E.validateImageTag r <;> simp [himg] at h
  · cases himg : E.validateImageTag r with
    | some e =>
      rw [ValidateUpdate_image_err E r old e himg] at h
      simp at h
    | none =>
      cases old with
      | other k => simp [ValidateUpdate, himg] at h
      | emqxEnterprise o =>
        rw [ValidateUpdate_image_ok E r o himg, hlic] at h
        cases hup : validateUsernameAndPassword r.asEmqx o.asEmqx <;> simp [hup] at h

/-- Witness of the amended C7: the resource with only a secret name is accepted by
`ValidateCreate`. -/
theorem C7_accepted_license_not_both_witness :
    ValidateCreate plainCollaborators secretOnlyResource = none ∧
    ¬ (secretOnlyResource.Spec.EmqxTemplate.License.secretSet ∧
       secretOnlyResource.Spec.EmqxTemplate.License.inlineSet) :=
  ⟨by decide,
   C7_accepted_license_not_both plainCollaborators secretOnlyResource
     (Or.inl (by decide))⟩

/-- C8, counterexample: the usernames differ, but the image reference of the new
resource fails the image-tag check; `ValidateUpdate` returns the error of the image-tag
check and not the username refusal. -/
theorem C8_image_error_before_username_counterexample :
    aliceUntagged.Spec.EmqxTemplate.Username ≠ bobResource.Spec.EmqxTemplate.Username ∧
    ValidateUpdate tagCheckingCollaborators aliceUntagged (.emqxEnterprise bobResource)
      = .returned (some (errors.New "image tag is missing")) ∧
    ValidateUpdate tagCheckingCollaborators aliceUntagged (.emqxEnterprise bobResource)
      ≠ .returned (some usernameRefusal) := by
  refine ⟨by decide, by decide, by decide⟩

/-- C8, amended: for every update pair with different usernames `ValidateUpdate`
rejects: with the error of the image-tag check when that check fails, and otherwise
with the username refusal, whatever the password, license and persistence fields of the
two resources are. -/
theorem C8_ValidateUpdate_username_changed {P S : Type} [DecidableEq P]
    (E : Collaborators P S) (new old : EmqxEnterprise P S)
    (hu : new.Spec.EmqxTemplate.Username ≠ old.Spec.EmqxTemplate.Username) :
    ValidateUpdate E new (.emqxEnterprise old) = .returned (some
      (match E.validateImageTag new with
       | some err => err
       | none => usernameRefusal)) := by
  cases himg : E.validateImageTag new with
  | some e => exact ValidateUpdate_image_err E new _ e himg
  | none =>
    rw [ValidateUpdate_image_ok E new old himg, validateUsernameAndPassword_eq, if_pos hu]

/-- Witness of the amended C8: the image passes, username and persistence differ, and
the username refusal is returned. -/
theorem C8_ValidateUpdate_username_changed_witness :
    aliceResized.Spec.EmqxTemplate.Username ≠ bobResource.Spec.EmqxTemplate.Username ∧
    ValidateUpdate plainCollaborators aliceResized (.emqxEnterprise bobResource)
      = .returned (some usernameRefusal) :=
  ⟨by decide,
   C8_ValidateUpdate_username_changed plainCollaborators aliceResized bobResource
     (by decide)⟩

/-- C9, counterexample: the license of the new resource names a secret and carries
inline material, but the usernames differ; `ValidateUpdate` returns the username
refusal and not the license error. -/
theorem C9_username_refusal_before_license_counterexample :
    aliceConflicting.Spec.EmqxTemplate.License.secretSet ∧
    aliceConflicting.Spec.EmqxTemplate.License.inlineSet ∧
    ValidateUpdate plainCollaborators aliceConflicting (.emqxEnterprise bobResource)
      = .returned (some usernameRefusal) ∧
    ValidateUpdate plainCollaborators aliceConflicting (.emqxEnterprise bobResource)
      ≠ .returned (some licenseError) := by
  refine ⟨by decide, ?_, by decide, by decide⟩
  right
  decide

/-- C9, amended: for every update pair where the license of the new resource has a
non-empty `SecretName` and a non-empty `Data` or `StringData`, `ValidateUpdate` rejects:
with the error of the image-tag check when that check fails, else with the refusal of
the credentials check when username or password differ, and otherwise with the license
error. -/
theorem C9_ValidateUpdate_license_conflict {P S : Type} [DecidableEq P]
    (E : Collaborators P S) (new old : EmqxEnterprise P S)
    (hl : new.Spec.EmqxTemplate.License.SecretName ≠ "" ∧
      (new.Spec.EmqxTemplate.License.Data.len ≠ 0 ∨
        new.Spec.EmqxTemplate.License.StringData.len ≠ 0)) :
    ValidateUpdate E new (.emqxEnterprise old) = .returned (some
      (match E.validateImageTag new with
       | some err => err
       | none =>
         match validateUsernameAndPassword new.asEmqx old.asEmqx with
         | some err => err
         | none => licenseError)) := by
  have hlic : validateLicense new = some licenseError := (validateLicense_eq new).1 hl
  cases himg : E.validateImageTag new with
  | some e => exact ValidateUpdate_image_err E new _ e himg
  | none =>
    rw [ValidateUpdate_image_ok E new old himg, hlic]
    cases validateUsernameAndPassword new.asEmqx old.asEmqx <;> rfl

/-- Witness of the amended C9: image and credentials pass, and the license error is
returned. -/
theorem C9_ValidateUpdate_license_conflict_witness :
    (aliceConflicting.Spec.EmqxTemplate.License.SecretName ≠ "" ∧
      (aliceConflicting.Spec.EmqxTemplate.License.Data.len ≠ 0 ∨
        aliceConflicting.Spec.EmqxTemplate.License.StringData.len ≠ 0)) ∧
    ValidateUpdate plainCollaborators aliceConflicting (.emqxEnterprise aliceResized)
      = .returned (some licenseError) :=
  ⟨⟨by decide, Or.inr (by decide)⟩,
   C9_ValidateUpdate_license_conflict plainCollaborators aliceConflicting aliceResized
     ⟨by decide, Or.inr (by decide)⟩⟩

/-- C10: for every update pair where the image-tag check passes, usernames are equal,
passwords are equal and the license check passes, `ValidateUpdate` rejects with the
persistence refusal if and only if the persistence configurations of the two resources
are not deeply equal, and accepts otherwise. -/
theorem C10_ValidateUpdate_persistent {P S : Type} [DecidableEq P]
    (E : Collaborators P S) (new old : EmqxEnterprise P S)
    (himg : E.validateImageTag new = none)
    (hu : new.Spec.EmqxTemplate.Username = old.Spec.EmqxTemplate.Username)
    (hp : new.Spec.EmqxTemplate.Password = old.Spec.EmqxTemplate.Password)
    (hlic : validateLicense new = none) :
    (ValidateUpdate E new (.emqxEnterprise old) = .returned (some persistentRefusal) ↔
      new.Spec.EmqxTemplate.Persistent ≠ old.Spec.EmqxTemplate.Persistent) ∧
    (ValidateUpdate E new (.emqxEnterprise old) = .returned none ↔
      new.Spec.EmqxTemplate.Persistent = old.Spec.EmqxTemplate.Persistent) := by
  rw [ValidateUpdate_image_ok E new old himg, validateUsernameAndPassword_eq, hlic,
    validatePersistent_eq]
  simp only [hu, hp, ne_eq, not_true_eq_false, if_false]
  by_cases hper : new.Spec.EmqxTemplate.Persistent = old.Spec.EmqxTemplate.Persistent
  · simp [hper]
  · simp [hper]

/-- Witness of C10: image, credentials and license pass, the persistence configurations
differ, and the persistence refusal is returned. -/
theorem C10_ValidateUpdate_persistent_witness :
    plainCollaborators.validateImageTag aliceResized = none ∧
    validateLicense aliceResized = none ∧
    ValidateUpdate plainCollaborators aliceResized (.emqxEnterprise aliceResource)
      = .returned (some persistentRefusal) :=
  ⟨rfl, by decide,
   (C10_ValidateUpdate_persistent plainCollaborators aliceResized aliceResource
      rfl rfl rfl (by decide)).1.2 (by decide)⟩

/-! ## Order of the checks -/

/-- C11: for every update pair `ValidateUpdate` returns exactly the error of the first
failing check in the order image-tag, credentials, license, persistence, and it returns
success if and only if all four checks pass. -/
theorem C11_ValidateUpdate_first_failure {P S : Type} [DecidableEq P]
    (E : Collaborators P S) (new old : EmqxEnterprise P S) :
    ValidateUpdate E new (.emqxEnterprise old) = .returned (firstFailure
      [E.validateImageTag new,
       validateUsernameAndPassword new.asEmqx old.asEmqx,
       validateLicense new,
       validatePersistent new.asEmqx old.asEmqx]) ∧
    (ValidateUpdate E new (.emqxEnterprise old) = .returned none ↔
      (E.validateImageTag new = none ∧
       validateUsernameAndPassword new.asEmqx old.asEmqx = none ∧
       validateLicense new = none ∧
       validatePersistent new.asEmqx old.asEmqx = none)) := by
  cases himg : E.validateImageTag new with
  | some e =>
    rw [ValidateUpdate_image_err E new _ e himg]
    simp [firstFailure]
  | none =>
    rw [ValidateUpdate_image_ok E new old himg]
    cases hup : validateUsernameAndPassword new.asEmqx old.asEmqx with
    | some e => simp [firstFailure]
    | none =>
      cases hlic : validateLicense new with
      | some e => simp [firstFailure]
      | none =>
        cases hper : validatePersistent new.asEmqx old.asEmqx <;> simp [firstFailure]

/-- C12: for every update pair that `ValidateUpdate` accepts, the usernames are equal,
the passwords are equal and the persistence configurations are deeply equal. -/
theorem C12_ValidateUpdate_accepted_unchanged {P S : Type} [DecidableEq P]
    (E : Collaborators P S) (new old : EmqxEnterprise P S)
    (h : ValidateUpdate E new (.emqxEnterprise old) = .returned none) :
    new.Spec.EmqxTemplate.Username = old.Spec.EmqxTemplate.Username ∧
    new.Spec.EmqxTemplate.Password = old.Spec.EmqxTemplate.Password ∧
    new.Spec.EmqxTemplate.Persistent = old.Spec.EmqxTemplate.Persistent := by
  cases himg : E.validateImageTag new with
  | some e =>
    rw [ValidateUpdate_image_err E new _ e himg] at h
    simp at h
  | none =>
    rw [ValidateUpdate_image_ok E new old himg, validateUsernameAndPassword_eq,
      validatePersistent_eq] at h
    by_cases hu : new.Spec.EmqxTemplate.Username = old.Spec.EmqxTemplate.Username
    · by_cases hp : new.Spec.EmqxTemplate.Password = old.Spec.EmqxTemplate.Password
      · by_cases hper :
            new.Spec.EmqxTemplate.Persistent = old.Spec.EmqxTemplate.Persistent
        · exact ⟨hu, hp, hper⟩
        · cases hlic : validateLicense new <;> simp [hu, hp, hper, hlic] at h
      · simp [hu, hp] at h
    · simp [hu] at h

/-- Witness of C12: an update that changes nothing but the image is accepted. -/
theorem C12_ValidateUpdate_accepted_unchanged_witness :
    ValidateUpdate plainCollaborators aliceUntagged (.emqxEnterprise aliceResource)
      = .returned none ∧
    aliceUntagged.Spec.EmqxTemplate.Username = aliceResource.Spec.EmqxTemplate.Username ∧
    aliceUntagged.Spec.EmqxTemplate.Password = aliceResource.Spec.EmqxTemplate.Password ∧
    aliceUntagged.Spec.EmqxTemplate.Persistent
      = aliceResource.Spec.EmqxTemplate.Persistent :=
  ⟨by decide,
   C12_ValidateUpdate_accepted_unchanged plainCollaborators aliceUntagged aliceResource
     (by decide)⟩

/-- C13: `ValidateCreate` runs the image-tag check first and the license check second:
when the image-tag check fails its error is returned unchanged, whatever the license
is; otherwise the result is exactly the result of the license check; success is
returned if and only if both checks pass. -/
theorem C13_ValidateCreate_order {P S : Type} (E : Collaborators P S)
    (r : EmqxEnterprise P S) :
    ValidateCreate E r = firstFailure [E.validateImageTag r, validateLicense r] ∧
    ValidateCreate E r =
      (match E.validateImageTag r with
       | some err => some err
       | none => validateLicense r) ∧
    (ValidateCreate E r = none ↔
      (E.validateImageTag r = none ∧ validateLicense r = none)) := by
  cases himg : E.validateImageTag r with
  | some e => simp [ValidateCreate, himg, firstFailure]
  | none =>
    cases hlic : validateLicense r <;> simp [ValidateCreate, himg, hlic, firstFailure]

/-- C14: for every resource `ValidateDelete` returns success, also for a resource that
`ValidateCreate` rejects for its image or its license. -/
theorem C14_ValidateDelete_succeeds {P S : Type} (E : Collaborators P S)
    (r : EmqxEnterprise P S) :
    ValidateDelete r = none ∧
    (ValidateCreate E r ≠ none → ValidateDelete r = none) :=
  ⟨rfl, fun _ => rfl⟩

/-- Witness of C14: the resource with the conflicting license is rejected on create and
accepted on delete. -/
theorem C14_ValidateDelete_succeeds_witness :
    ValidateCreate plainCollaborators aliceConflicting ≠ none ∧
    ValidateDelete aliceConflicting = none :=
  ⟨by decide,
   (C14_ValidateDelete_succeeds plainCollaborators aliceConflicting).2 (by decide)⟩

/-! ## The config after defaulting -/

/-- C15: for every resource, after `Default` the config mapping is non-nil: it is the
result of the config defaulter applied to the mapping the caller supplied, or to a
fresh empty mapping when the caller supplied none; the owner it is called with is the
resource after the label step, holding that mapping. -/
theorem C15_Default_config_non_nil {P S : Type} (E : Collaborators P S)
    (r : EmqxEnterprise P S) :
    (Default E r).Spec.EmqxTemplate.EmqxConfig ≠ none ∧
    (Default E r).Spec.EmqxTemplate.EmqxConfig =
      some (E.configDefault
        (match r.Spec.EmqxTemplate.EmqxConfig with
         | none => ∅
         | some m => m)
        { defaultLabels r with
          Spec.EmqxTemplate.EmqxConfig :=
            some (match r.Spec.EmqxTemplate.EmqxConfig with
                  | none => ∅
                  | some m => m) }) := by
  have h : (Default E r).Spec.EmqxTemplate.EmqxConfig =
      some (E.configDefault
        (match r.Spec.EmqxTemplate.EmqxConfig with
         | none => ∅
         | some m => m)
        { defaultLabels r with
          Spec.EmqxTemplate.EmqxConfig :=
            some (match r.Spec.EmqxTemplate.EmqxConfig with
                  | none => ∅
                  | some m => m) }) := by
    simp only [Default, defaultCredentials, defaultSecurityContext, defaultServiceTemplate,
      defaultConfig, defaultLabels]
    split <;> split <;> split <;> rfl
  refine ⟨?_, h⟩
  rw [h]
  exact Option.some_ne_none _

/-! ## The credentials check -/

/-- C16: for every pair, `validateUsernameAndPassword` returns the username refusal when
the usernames differ (also when the passwords differ too), the password refusal when
the usernames are equal and the passwords differ, and success exactly when both are
equal. -/
theorem C16_validateUsernameAndPassword_cases {P : Type} (new old : Emqx P) :
    (new.GetUsername ≠ old.GetUsername →
      validateUsernameAndPassword new old = some usernameRefusal) ∧
    (new.GetUsername = old.GetUsername → new.GetPassword ≠ old.GetPassword →
      validateUsernameAndPassword new old = some passwordRefusal) ∧
    (validateUsernameAndPassword new old = none ↔
      (new.GetUsername = old.GetUsername ∧ new.GetPassword = old.GetPassword)) := by
  refine ⟨?_, ?_, ?_⟩
  · intro hu
    simp only [validateUsernameAndPassword, usernameRefusal]
    rw [if_pos hu]
  · intro hu hp
    simp only [validateUsernameAndPassword, passwordRefusal]
    rw [if_neg (not_not.mpr hu), if_pos hp]
  · simp only [validateUsernameAndPassword]
    by_cases hu : new.GetUsername = old.GetUsername
    · by_cases hp : new.GetPassword = old.GetPassword
      · simp [hu, hp]
      · simp [hu, hp]
    · simp [hu]

/-- Witness of C16: username and password both differ, and the username refusal is
returned. -/
theorem C16_validateUsernameAndPassword_cases_witness :
    validateUsernameAndPassword
      ({ GetUsername := "alice", GetPassword := "pw", GetPersistent := 0 } : Emqx Nat)
      ({ GetUsername := "bob", GetPassword := "other", GetPersistent := 0 } : Emqx Nat)
      = some usernameRefusal :=
  (C16_validateUsernameAndPassword_cases
    ({ GetUsername := "alice", GetPassword := "pw", GetPersistent := 0 } : Emqx Nat)
    ({ GetUsername := "bob", GetPassword := "other", GetPersistent := 0 } : Emqx Nat)).1
    (by decide)

/-! ## Frame of the label step -/

/-- C17: for every resource and every label key other than the two reserved keys, the
label step of `Default`, and `Default` as a whole, leave the presence and the value of
that key unchanged. -/
theorem C17_Default_other_labels_unchanged {P S : Type} (E : Collaborators P S)
    (r : EmqxEnterprise P S) (k : String)
    (h1 : k ≠ "apps.emqx.io/managed-by") (h2 : k ≠ "apps.emqx.io/instance") :
    (defaultLabels r).Labels.get k = r.Labels.get k ∧
    (Default E r).Labels.get k = r.Labels.get k := by
  have h : (defaultLabels r).Labels.get k = r.Labels.get k := by
    simp only [defaultLabels, GoMap.get]
    rw [Finmap.lookup_insert_of_ne _ h2, Finmap.lookup_insert_of_ne _ h1]
    cases r.Labels with
    | none => exact Finmap.lookup_empty k
    | some m => rfl
  exact ⟨h, by rw [Default_Labels, h]⟩

/-- Witness of C17: the label `team` of a resource that also holds other values under
the reserved keys. -/
theorem C17_Default_other_labels_unchanged_witness :
    (defaultLabels teamResource).Labels.get "team" = some "iot" ∧
    (Default plainCollaborators teamResource).Labels.get "team" = some "iot" :=
  C17_Default_other_labels_unchanged plainCollaborators teamResource "team"
    (by decide) (by decide)

/-! ## Updates that change nothing, and the type assertion -/

/-- C18: for every enterprise resource `x`, `ValidateUpdate` of `x` against itself
returns what `ValidateCreate` returns for `x`; in particular the one succeeds if and
only if the other does, and the credentials and persistence checks accept. -/
theorem C18_ValidateUpdate_self {P S : Type} [DecidableEq P] (E : Collaborators P S)
    (x : EmqxEnterprise P S) :
    ValidateUpdate E x (.emqxEnterprise x) = .returned (ValidateCreate E x) ∧
    (ValidateUpdate E x (.emqxEnterprise x) = .returned none ↔ ValidateCreate E x = none) ∧
    validateUsernameAndPassword x.asEmqx x.asEmqx = none ∧
    validatePersistent x.asEmqx x.asEmqx = none := by
  have hup : validateUsernameAndPassword x.asEmqx x.asEmqx = none := by
    simp [validateUsernameAndPassword]
  have hper : validatePersistent x.asEmqx x.asEmqx = none := by
    simp [validatePersistent]
  have hmain : ValidateUpdate E x (.emqxEnterprise x) = .returned (ValidateCreate E x) := by
    cases himg : E.validateImageTag x with
    | some e =>
      rw [ValidateUpdate_image_err E x _ e himg]
      simp [ValidateCreate, himg]
    | none =>
      rw [ValidateUpdate_image_ok E x x himg, hup, hper]
      cases hlic : validateLicense x <;> simp [ValidateCreate, himg, hlic]
  refine ⟨hmain, ?_, hup, hper⟩
  rw [hmain]
  simp

/-- When the image-tag check passes and `old` is not an enterprise resource, the type
assertion of `ValidateUpdate` panics. -/
theorem ValidateUpdate_other_panics {P S : Type} [DecidableEq P] (E : Collaborators P S)
    (new : EmqxEnterprise P S) (kind : String) (himg : E.validateImageTag new = none) :
    ValidateUpdate E new (.other kind) = .panicked := by
  simp only [ValidateUpdate, himg]

/-- C19: for every new resource and every old object of the enterprise variant,
`ValidateUpdate` returns (success or an error) and does not panic; and when the
image-tag check fails its error is returned whatever `old` is, also for an object of
another type: the type assertion is only reached after the image-tag check passed. -/
theorem C19_ValidateUpdate_downcast_safe {P S : Type} [DecidableEq P]
    (E : Collaborators P S) (new : EmqxEnterprise P S) :
    (∀ old : EmqxEnterprise P S,
      ∃ err, ValidateUpdate E new (.emqxEnterprise old) = .returned err) ∧
    (∀ e, E.validateImageTag new = some e →
      ∀ old : RuntimeObject P S, ValidateUpdate E new old = .returned (some e)) := by
  constructor
  · intro old
    cases himg : E.validateImageTag new with
    | some e => exact ⟨_, ValidateUpdate_image_err E new _ e himg⟩
    | none => exact ⟨_, ValidateUpdate_image_ok E new old himg⟩
  · intro e himg old
    exact ValidateUpdate_image_err E new old e himg

/-- Witness of C19: the image-tag check fails and `old` is not an enterprise resource;
the error of the image-tag check is returned. -/
theorem C19_ValidateUpdate_downcast_safe_witness :
    tagCheckingCollaborators.validateImageTag aliceUntagged
      = some (errors.New "image tag is missing") ∧
    ValidateUpdate tagCheckingCollaborators aliceUntagged (.other "EmqxBroker")
      = .returned (some (errors.New "image tag is missing")) :=
  ⟨by decide,
   (C19_ValidateUpdate_downcast_safe tagCheckingCollaborators aliceUntagged).2
     (errors.New "image tag is missing") (by decide) (.other "EmqxBroker")⟩

end EmqxWebhook
